import Mathlib

/-!
Verification of the content-resolution and link-rewriting pipeline of
`src/serve.py` (Serve-CDC-WARC).

Strings and byte strings are modelled as `List Char`.  Python's
`str.replace` / `bytes.replace` (all occurrences, left to right,
non-overlapping) is `replaceAll`; `str.replace(old, new, 1)` is
`replaceFirst`.  The two anchored regular expressions used by
`ServeLevelDB.find_content` and `rewrite_html_urls` are modelled exactly,
including the behaviour of `.` and `$` on newlines.
-/

namespace ServeCDC

/-- The single-quote character (written via its code point so that string
literals in this file stay free of quote characters). -/
def sq : Char := Char.ofNat 39

/-- Fuelled worker for `replaceAll`.  When `old` is non-empty and the fuel
is at least the length of the input, this computes Python's
`s.replace(old, new)`: scan left to right, replace each non-overlapping
occurrence of `old` by `new`. -/
def replaceAllAux (old new : List Char) : Nat → List Char → List Char
  | 0, s => s
  | _ + 1, [] => []
  | fuel + 1, c :: rest =>
      if old ≠ [] ∧ old.isPrefixOf (c :: rest) then
        new ++ replaceAllAux old new fuel ((c :: rest).drop old.length)
      else
        c :: replaceAllAux old new fuel rest

/-- Python `s.replace(old, new)` for a non-empty pattern `old`. -/
def replaceAll (old new s : List Char) : List Char :=
  replaceAllAux old new s.length s

/-- Python `s.replace(old, new, 1)` for a non-empty pattern `old`:
replace only the first (leftmost) occurrence. -/
def replaceFirst (old new : List Char) : List Char → List Char
  | [] => []
  | c :: rest =>
      if old.isPrefixOf (c :: rest) then
        new ++ (c :: rest).drop old.length
      else
        c :: replaceFirst old new rest

/-- Boolean prefix test, Python's `s.startswith(pre)`. -/
def startsWith (pre s : List Char) : Bool := pre.isPrefixOf s

/-- Embedding of `simplify_path` (serve.py lines 182-206): strip one
leading `https://`, `http://`, `https:/` or `http:/` scheme prefix.  The
Python code uses `path.replace(prefix, "", 1)` guarded by
`path.startswith(prefix)`, which removes exactly the leading occurrence. -/
def simplify_path (path : List Char) : List Char :=
  if startsWith "https:/".data path ∧ ¬ startsWith "https://".data path then
    replaceFirst "https:/".data [] path
  else if startsWith "http:/".data path ∧ ¬ startsWith "http://".data path then
    replaceFirst "http:/".data [] path
  else if startsWith "https://".data path then
    replaceFirst "https://".data [] path
  else if startsWith "http://".data path then
    replaceFirst "http://".data [] path
  else
    path

/-- Split a list at the first occurrence of `ch`: `some (before, after)`
when `ch` occurs, `none` otherwise. -/
def splitFirst (ch : Char) : List Char → Option (List Char × List Char)
  | [] => none
  | c :: rest =>
      if c = ch then some ([], rest)
      else
        match splitFirst ch rest with
        | some (a, b) => some (c :: a, b)
        | none => none

/-- Semantics of the regex fragment `(.*)$` applied to the remainder `b`
of an anchored Python match: `.` does not match a newline and `$` matches
at the end of the string or just before one final newline.  So the
fragment matches iff `b` contains no newline (group is `b`), or the only
newline in `b` is its last character (group is `b` without it). -/
def matchDotStarEnd (b : List Char) : Option (List Char) :=
  if b.contains (Char.ofNat 10) then
    if b.getLast? == some (Char.ofNat 10) ∧
        ¬ b.dropLast.contains (Char.ofNat 10) then
      some b.dropLast
    else none
  else some b

/-- Semantics of Python `re.match(r"([^?]+)/\?(.*)$", s)` (serve.py line
55).  `[^?]+` cannot cross a question mark, so group 1 together with the
literal `/` occupies exactly the text before the first question mark of
`s`: the match succeeds iff `s` has a question mark, the text `a` before
the first one ends in `/` with at least one character before that slash,
and the remainder satisfies `(.*)$`.  Returns `some (group1, group2)`. -/
def regexSlashQ (s : List Char) : Option (List Char × List Char) :=
  match splitFirst '?' s with
  | none => none
  | some (a, b) =>
      match matchDotStarEnd b with
      | none => none
      | some g2 =>
          if a.getLast? == some '/' ∧ 2 ≤ a.length then
            some (a.dropLast, g2)
          else none

/-- Semantics of Python `re.match(r"([^?]+)\?(.*)$", s)` (serve.py line
61): succeeds iff `s` has a question mark with at least one character
before the first one, and the remainder satisfies `(.*)$`. -/
def regexQ (s : List Char) : Option (List Char × List Char) :=
  match splitFirst '?' s with
  | none => none
  | some (a, b) =>
      match matchDotStarEnd b with
      | none => none
      | some g2 => if a.isEmpty then none else some (a, g2)

/-- Space-encoding step of `find_content` (serve.py line 46):
`full_path.replace(' ', '%20')`. -/
def encodeSpaces (s : List Char) : List Char :=
  replaceAll [' '] "%20".data s

/-- The single corrected key tried by `find_content` when the primary
lookup fails (serve.py lines 55-67): drop the slash before the query
string, else insert one, else (no query string) append a trailing
slash. -/
def fallbackKey (fp : List Char) : List Char :=
  match regexSlashQ fp with
  | some (g1, g2) => g1 ++ "?".data ++ g2
  | none =>
      match regexQ fp with
      | some (g1, g2) => g1 ++ "/?".data ++ g2
      | none => fp ++ "/".data

/-- The two keyspaces of the LevelDB database: `c-` (content bytes) and
`m-` (mimetype), each a point lookup that can report absence. -/
structure Store where
  content_db : List Char → Option (List Char)
  mimetype_db : List Char → Option (List Char)

/-- Embedding of `ServeLevelDB.find_content` (serve.py lines 39-81).
Looks up both namespaces at the space-encoded key; if either misses, it
retries once at the corrected key; if either still misses it returns
`(None, None)`.  A `(some, some)` match mirrors Python's
`content is None or mimetype is None` test. -/
def find_content (db : Store) (full_path : List Char) :
    Option (List Char) × Option (List Char) :=
  match db.content_db (encodeSpaces full_path),
        db.mimetype_db (encodeSpaces full_path) with
  | some content, some mimetype => (some content, some mimetype)
  | _, _ =>
      match db.content_db (fallbackKey (encodeSpaces full_path)),
            db.mimetype_db (fallbackKey (encodeSpaces full_path)) with
      | some content, some mimetype => (some content, some mimetype)
      | _, _ => (none, none)

/-- Semantics of Python `re.match(r"([^/]+)/", full_path)` returning
group 1 (serve.py line 108): the non-empty leading segment before the
first `/`, or `none` when there is no `/` or the path starts with `/`. -/
def pathMatch (s : List Char) : Option (List Char) :=
  match splitFirst '/' s with
  | none => none
  | some (a, _) => if a.isEmpty then none else some a

/-- Staging-domain fix (serve.py line 116). -/
def fixStaging (c : List Char) : List Char :=
  replaceAll "hivriskstage.cdc.gov".data "hivrisk.cdc.gov".data c

/-- Attribute-anchored absolute-path rewrites (serve.py lines 118-135):
six replacements inserting the page domain after the slash of
`href="/`, `href='/`, `src="/`, `src='/`, `srcset="/`, `srcset='/`. -/
def attrAbsRewrite (website c : List Char) : List Char :=
  let c := replaceAll ("href=\"/".data)
    ("href=\"/".data ++ website ++ "/".data) c
  let c := replaceAll ("href=".data ++ [sq, '/'])
    ("href=".data ++ [sq, '/'] ++ website ++ "/".data) c
  let c := replaceAll ("src=\"/".data)
    ("src=\"/".data ++ website ++ "/".data) c
  let c := replaceAll ("src=".data ++ [sq, '/'])
    ("src=".data ++ [sq, '/'] ++ website ++ "/".data) c
  let c := replaceAll ("srcset=\"/".data)
    ("srcset=\"/".data ++ website ++ "/".data) c
  let c := replaceAll ("srcset=".data ++ [sq, '/'])
    ("srcset=".data ++ [sq, '/'] ++ website ++ "/".data) c
  c

/-- Per-site rewrites for a supported site (serve.py lines 136-156):
`https://<site>/` and its four `href=`/`src=` quoted forms become the
local path `/<site>/`. -/
def supportedSiteRewrite (site c : List Char) : List Char :=
  let c := replaceAll ("https://".data ++ site ++ "/".data)
    ("/".data ++ site ++ "/".data) c
  let c := replaceAll ("href=\"https://".data ++ site ++ "/".data)
    ("href=\"/".data ++ site ++ "/".data) c
  let c := replaceAll ("href=".data ++ [sq] ++ "https://".data ++ site ++ "/".data)
    ("href=".data ++ [sq, '/'] ++ site ++ "/".data) c
  let c := replaceAll ("src=\"https://".data ++ site ++ "/".data)
    ("src=\"/".data ++ site ++ "/".data) c
  let c := replaceAll ("src=".data ++ [sq] ++ "https://".data ++ site ++ "/".data)
    ("src=".data ++ [sq, '/'] ++ site ++ "/".data) c
  c

/-- Per-site rewrites for a primary site (serve.py lines 157-177):
`https://<site>/` and its four quoted forms become
`https://<primary_host>/<site>/`. -/
def primarySiteRewrite (host site c : List Char) : List Char :=
  let c := replaceAll ("https://".data ++ site ++ "/".data)
    ("https://".data ++ host ++ "/".data ++ site ++ "/".data) c
  let c := replaceAll ("href=\"https://".data ++ site ++ "/".data)
    ("href=\"https://".data ++ host ++ "/".data ++ site ++ "/".data) c
  let c := replaceAll ("href=".data ++ [sq] ++ "https://".data ++ site ++ "/".data)
    ("href=".data ++ [sq] ++ "https://".data ++ host ++ "/".data ++ site ++ "/".data) c
  let c := replaceAll ("src=\"https://".data ++ site ++ "/".data)
    ("src=\"https://".data ++ host ++ "/".data ++ site ++ "/".data) c
  let c := replaceAll ("src=".data ++ [sq] ++ "https://".data ++ site ++ "/".data)
    ("src=".data ++ [sq] ++ "https://".data ++ host ++ "/".data ++ site ++ "/".data) c
  c

/-- Embedding of `rewrite_html_urls` (serve.py lines 84-179).  The module
globals `supported_sites`, `primary_host`, `primary_sites` are passed as
explicit arguments.  When the leading-segment match on `full_path` fails
the content is returned unchanged; otherwise the staging fix, the six
attribute-anchored replaces, the supported-site passes and the
primary-site passes run in source order. -/
def rewrite_html_urls (supported_sites : List (List Char))
    (primary_host : List Char) (primary_sites : List (List Char))
    (full_path content : List Char) : List Char :=
  match pathMatch full_path with
  | none => content
  | some website =>
      let c := fixStaging content
      let c := attrAbsRewrite website c
      let c := supported_sites.foldl (fun acc site => supportedSiteRewrite site acc) c
      let c := primary_sites.foldl (fun acc site => primarySiteRewrite primary_host site acc) c
      c

/-- Textual-mimetype gate of the `lookup` route (serve.py lines 246-255). -/
def isTextualMime (m : List Char) : Bool :=
  m == "text/html".data || startsWith "text/html;".data m ||
  m == "application/javascript".data || m == "application/x-javascript".data ||
  m == "text/javascript".data || m == "text/css".data

/-- Outcome of the catch-all route, as seen at the HTTP boundary. -/
inductive HttpResult where
  | notFound : HttpResult
  | redirectTo : List Char → HttpResult
  | ok : List Char → List Char → HttpResult
deriving DecidableEq

/-- Embedding of the catch-all route `lookup` (serve.py lines 217-258),
from the point where `full_path` (the request path and query string
without its leading slash) is in hand: simplify the path, resolve it with
the `https://` prefix re-attached, 404 on a miss, follow the
`=redirect=` sentinel, rewrite textual content, and otherwise pass the
stored bytes through unchanged. -/
def lookup (supported_sites : List (List Char)) (primary_host : List Char)
    (primary_sites : List (List Char)) (db : Store)
    (full_path0 : List Char) : HttpResult :=
  match find_content db ("https://".data ++ simplify_path full_path0) with
  | (some content, some mimetype) =>
      if mimetype = "=redirect=".data then
        HttpResult.redirectTo ("/".data ++ content)
      else if isTextualMime mimetype then
        HttpResult.ok
          (rewrite_html_urls supported_sites primary_host primary_sites
            (simplify_path full_path0) content)
          mimetype
      else
        HttpResult.ok content mimetype
  | (_, _) => HttpResult.notFound

/-- A store holding a single redirect record: key `https://foo` maps to
content `other.cdc.gov/` with the `=redirect=` sentinel mimetype. -/
def redirDb : Store where
  content_db := fun k =>
    if k = "https://foo".data then some "other.cdc.gov/".data else none
  mimetype_db := fun k =>
    if k = "https://foo".data then some "=redirect=".data else none

/-- A store containing exactly the key `https://nccd.cdc.gov/favicon.ico`
with content `1234` and mimetype `image/x-icon` (the store of
`test_find_content_mimetypes` restricted to its favicon record). -/
def faviconDb : Store where
  content_db := fun k =>
    if k = "https://nccd.cdc.gov/favicon.ico".data then some "1234".data else none
  mimetype_db := fun k =>
    if k = "https://nccd.cdc.gov/favicon.ico".data then some "image/x-icon".data
    else none

/-- A store holding one stylesheet record whose mimetype carries a
parameter: key `https://x/a`, content `href="/foo`, mimetype
`text/css; charset=utf-8`. -/
def cssParamDb : Store where
  content_db := fun k =>
    if k = "https://x/a".data then some "href=\"/foo".data else none
  mimetype_db := fun k =>
    if k = "https://x/a".data then some "text/css; charset=utf-8".data else none

/-- A store holding one HTML record whose mimetype carries a parameter:
key `https://x/a`, content `href="/foo`, mimetype
`text/html; charset=utf-8`. -/
def htmlParamDb : Store where
  content_db := fun k =>
    if k = "https://x/a".data then some "href=\"/foo".data else none
  mimetype_db := fun k =>
    if k = "https://x/a".data then some "text/html; charset=utf-8".data else none

/-- A store whose content namespace is total but whose mimetype namespace
is empty: every key is only partially present. -/
def partialDb : Store where
  content_db := fun _ => some "x".data
  mimetype_db := fun _ => none

/-- A store holding a single record under the slashed query key
`https://a.b/c/?q=1`. -/
def slashKeyDb : Store where
  content_db := fun k =>
    if k = "https://a.b/c/?q=1".data then some "body1".data else none
  mimetype_db := fun k =>
    if k = "https://a.b/c/?q=1".data then some "text/html".data else none

/-- A store holding a single record under the unslashed query key
`https://a.b/c?q=1`. -/
def noSlashKeyDb : Store where
  content_db := fun k =>
    if k = "https://a.b/c?q=1".data then some "body2".data else none
  mimetype_db := fun k =>
    if k = "https://a.b/c?q=1".data then some "text/html".data else none

/-- A store holding a single record under `https://x//` — the key that a
second corrective rewrite of the lookup path `https://x` would produce.
`find_content` never reaches it. -/
def doubleSlashDb : Store where
  content_db := fun k =>
    if k = "https://x//".data then some "deep".data else none
  mimetype_db := fun k =>
    if k = "https://x//".data then some "text/html".data else none

/-- A store holding different records under both query-key variants:
`https://a.b/c/?q=1` maps to `body1` and `https://a.b/c?q=1` maps to
`body2`, both with mimetype `text/html`. -/
def bothKeysDb : Store where
  content_db := fun k =>
    if k = "https://a.b/c/?q=1".data then some "body1".data
    else if k = "https://a.b/c?q=1".data then some "body2".data
    else none
  mimetype_db := fun k =>
    if k = "https://a.b/c/?q=1".data then some "text/html".data
    else if k = "https://a.b/c?q=1".data then some "text/html".data
    else none

/-! Helper lemmas shared by the claim theorems. -/

/-- Removing the first occurrence of a pattern that sits at the head of
the list just drops that many characters. -/
theorem replaceFirst_nil_of_prefix (old p : List Char)
    (h : old.isPrefixOf p = true) :
    replaceFirst old [] p = p.drop old.length := by
  cases p with
  | nil =>
      cases old with
      | nil => rfl
      | cons c t => simp [List.isPrefixOf] at h
  | cons c rest => simp [replaceFirst, h]

/-- A prefix test is monotone along prefixes of the pattern. -/
theorem startsWith_mono {a b : List Char} (hab : a <+: b) (p : List Char)
    (h : startsWith b p = true) : startsWith a p = true := by
  unfold startsWith at h ⊢
  rw [List.isPrefixOf_iff_prefix] at h ⊢
  exact hab.trans h

/-- Two incomparable patterns cannot both be prefixes of one list. -/
theorem startsWith_incomp {a b : List Char} (hab : ¬ a <+: b) (hba : ¬ b <+: a)
    (p : List Char) (h : startsWith a p = true) : startsWith b p = false := by
  rw [Bool.eq_false_iff]
  intro hb
  unfold startsWith at h hb
  rw [List.isPrefixOf_iff_prefix] at h hb
  rcases List.prefix_or_prefix_of_prefix h hb with hc | hc
  · exact hab hc
  · exact hba hc

/-- A path starting with neither `https:/` nor `http:/` is a fixed point
of `simplify_path`. -/
theorem simplify_path_fixed (p : List Char)
    (h1 : startsWith "https:/".data p = false)
    (h2 : startsWith "http:/".data p = false) :
    simplify_path p = p := by
  have h3 : startsWith "https://".data p = false := by
    rw [Bool.eq_false_iff]
    intro hc
    rw [startsWith_mono (by decide : "https:/".data <+: "https://".data) p hc] at h1
    exact Bool.true_eq_false.mp h1
  have h4 : startsWith "http://".data p = false := by
    rw [Bool.eq_false_iff]
    intro hc
    rw [startsWith_mono (by decide : "http:/".data <+: "http://".data) p hc] at h2
    exact Bool.true_eq_false.mp h2
  simp [simplify_path, h1, h2, h3, h4]

/-- `splitFirst` fails on a list that does not contain the split
character. -/
theorem splitFirst_eq_none (ch : Char) (s : List Char)
    (h : s.contains ch = false) : splitFirst ch s = none := by
  induction s with
  | nil => rfl
  | cons c rest ih =>
      rw [List.contains_cons, Bool.or_eq_false_iff] at h
      have hc : ¬ c = ch := by
        intro he
        rw [he] at h
        simp at h
      rw [splitFirst, if_neg hc, ih h.2]

/-- The boolean textual-mimetype gate, characterised as a disjunction. -/
theorem isTextualMime_iff (m : List Char) :
    isTextualMime m = true ↔
      (m = "text/html".data ∨ "text/html;".data <+: m ∨
       m = "application/javascript".data ∨ m = "application/x-javascript".data ∨
       m = "text/javascript".data ∨ m = "text/css".data) := by
  simp [isTextualMime, startsWith, List.isPrefixOf_iff_prefix, or_assoc]

/-! Claim theorems. -/

/-- C5 counterexample: `simplify_path` is not idempotent on all inputs.
A doubled scheme prefix such as `https://https://a.b/c` is stripped once
per application, so a second application changes the result again. -/
theorem c5_counterexample :
    simplify_path (simplify_path "https://https://a.b/c".data) ≠
      simplify_path "https://https://a.b/c".data := by decide

/-- C5 (amended): the key normalizer is idempotent on every input whose
normalized form does not itself begin with a scheme prefix (`https:/` or
`http:/`, which subsume the double-slash forms); such already-normalized
outputs are fixed points of `simplify_path`. -/
theorem c5_normalize_idempotent_on_normalized (p : List Char)
    (h1 : startsWith "https:/".data (simplify_path p) = false)
    (h2 : startsWith "http:/".data (simplify_path p) = false) :
    simplify_path (simplify_path p) = simplify_path p :=
  simplify_path_fixed (simplify_path p) h1 h2

/-- Witness for C5 at the concrete input `https://a.b/c`. -/
theorem c5_witness :
    startsWith "https:/".data (simplify_path "https://a.b/c".data) = false ∧
    simplify_path (simplify_path "https://a.b/c".data) =
      simplify_path "https://a.b/c".data :=
  ⟨by decide,
   c5_normalize_idempotent_on_normalized "https://a.b/c".data
     (by decide) (by decide)⟩

/-- C6: `simplify_path` maps each scheme-prefixed form of `a.b/c` to
`a.b/c`; in general it removes exactly one leading scheme prefix (the
result is a suffix obtained by dropping the matched prefix length:
8 for `https://`, 7 for `http://` and the malformed `https:/`, 6 for the
malformed `http:/`) and returns any input with no such prefix
unchanged. -/
theorem c6_scheme_strip :
    (simplify_path "https://a.b/c".data = "a.b/c".data) ∧
    (simplify_path "http://a.b/c".data = "a.b/c".data) ∧
    (simplify_path "https:/a.b/c".data = "a.b/c".data) ∧
    (simplify_path "http:/a.b/c".data = "a.b/c".data) ∧
    (∀ p : List Char, startsWith "https://".data p = true →
        simplify_path p = p.drop 8) ∧
    (∀ p : List Char, startsWith "http://".data p = true →
        simplify_path p = p.drop 7) ∧
    (∀ p : List Char, startsWith "https:/".data p = true →
        startsWith "https://".data p = false → simplify_path p = p.drop 7) ∧
    (∀ p : List Char, startsWith "http:/".data p = true →
        startsWith "http://".data p = false → simplify_path p = p.drop 6) ∧
    (∀ p : List Char, startsWith "https:/".data p = false →
        startsWith "http:/".data p = false → simplify_path p = p) := by
  refine ⟨by decide, by decide, by decide, by decide, ?_, ?_, ?_, ?_, ?_⟩
  · intro p h
    have hs7 : startsWith "https:/".data p = true :=
      startsWith_mono (by decide) p h
    have hh6 : startsWith "http:/".data p = false :=
      startsWith_incomp (by decide) (by decide) p h
    have hp : "https://".data.isPrefixOf p = true := h
    unfold simplify_path
    rw [if_neg (by simp [h, hs7]), if_neg (by simp [hh6]), if_pos h,
      replaceFirst_nil_of_prefix _ _ hp]
    rw [show ("https://".data).length = 8 from by decide]
  · intro p h
    have hs7 : startsWith "https:/".data p = false :=
      startsWith_incomp (by decide) (by decide) p h
    have hh6 : startsWith "http:/".data p = true :=
      startsWith_mono (by decide) p h
    have hs8 : startsWith "https://".data p = false :=
      startsWith_incomp (by decide) (by decide) p h
    have hp : "http://".data.isPrefixOf p = true := h
    unfold simplify_path
    rw [if_neg (by simp [hs7]), if_neg (by simp [h, hh6]),
      if_neg (by simp [hs8]), if_pos h, replaceFirst_nil_of_prefix _ _ hp]
    rw [show ("http://".data).length = 7 from by decide]
  · intro p h1 h2
    have hp : "https:/".data.isPrefixOf p = true := h1
    unfold simplify_path
    rw [if_pos ⟨h1, by simp [h2]⟩, replaceFirst_nil_of_prefix _ _ hp]
    rw [show ("https:/".data).length = 7 from by decide]
  · intro p h1 h2
    have hs7 : startsWith "https:/".data p = false :=
      startsWith_incomp (by decide) (by decide) p h1
    have hp : "http:/".data.isPrefixOf p = true := h1
    unfold simplify_path
    rw [if_neg (by simp [hs7]), if_pos ⟨h1, by simp [h2]⟩,
      replaceFirst_nil_of_prefix _ _ hp]
    rw [show ("http:/".data).length = 6 from by decide]
  · intro p h1 h2
    exact simplify_path_fixed p h1 h2

/-- Witness for C6: the universally quantified clauses instantiated at
concrete inputs, hypotheses discharged by evaluation. -/
theorem c6_witness :
    (simplify_path "https://a.b/c".data = "https://a.b/c".data.drop 8) ∧
    (simplify_path "http://a.b/c".data = "http://a.b/c".data.drop 7) ∧
    (simplify_path "https:/a.b/c".data = "https:/a.b/c".data.drop 7) ∧
    (simplify_path "http:/a.b/c".data = "http:/a.b/c".data.drop 6) ∧
    (simplify_path "a.b/c".data = "a.b/c".data) :=
  ⟨c6_scheme_strip.2.2.2.2.1 "https://a.b/c".data (by decide),
   c6_scheme_strip.2.2.2.2.2.1 "http://a.b/c".data (by decide),
   c6_scheme_strip.2.2.2.2.2.2.1 "https:/a.b/c".data (by decide) (by decide),
   c6_scheme_strip.2.2.2.2.2.2.2.1 "http:/a.b/c".data (by decide) (by decide),
   c6_scheme_strip.2.2.2.2.2.2.2.2 "a.b/c".data (by decide) (by decide)⟩

/-- C9: when the request path contains no slash the leading-segment match
of `rewrite_html_urls` fails and the content is returned byte-for-byte
unchanged: no substitution, the staging-domain fix included, is applied.
(The embedding is a total function, so the rewriter also cannot raise.) -/
theorem c9_no_domain_noop (sup : List (List Char)) (host : List Char)
    (prim : List (List Char)) (fp c : List Char)
    (h : fp.contains '/' = false) :
    rewrite_html_urls sup host prim fp c = c := by
  unfold rewrite_html_urls
  rw [show pathMatch fp = none from by
    unfold pathMatch; rw [splitFirst_eq_none '/' fp h]]

/-- Witness for C9: a slash-free path leaves rewritable content alone. -/
theorem c9_witness :
    ("nodomain".data.contains '/' = false) ∧
    rewrite_html_urls [] [] [] "nodomain".data
        "<a href=\"/foo.html\">hivriskstage.cdc.gov".data =
      "<a href=\"/foo.html\">hivriskstage.cdc.gov".data :=
  ⟨by decide,
   c9_no_domain_noop [] [] [] "nodomain".data
     "<a href=\"/foo.html\">hivriskstage.cdc.gov".data (by decide)⟩

/-- C1 counterexample: the round trip does not hold for every store.  In
`bothKeysDb` a record pair (`body1`, `text/html`) is stored under
`https://a.b/c/?q=1`, yet `find_content` on the lookup path
`https://a.b/c?q=1` returns the pair stored under the exact key instead,
so retrieval is not independent of the slash for stores holding both
variants. -/
theorem c1_counterexample :
    bothKeysDb.content_db "https://a.b/c/?q=1".data = some "body1".data ∧
    find_content bothKeysDb "https://a.b/c?q=1".data =
      (some "body2".data, some "text/html".data) ∧
    find_content bothKeysDb "https://a.b/c?q=1".data ≠
      (some "body1".data, some "text/html".data) := by
  refine ⟨by decide, by decide, by decide⟩

/-- C1 (amended): slash/query round-trip of the store lookup, for stores
in which the exact lookup key itself does not resolve.  A pair stored
under `https://a.b/c/?q=1` is returned for lookup path
`https://a.b/c?q=1` (and vice versa) whenever the exact key misses in at
least one namespace; and exactly one corrective rewrite is attempted — a
record reachable only through a second rewrite (here `https://x//` from
the lookup path `https://x`) is never consulted, so the lookup still
reports not-found. -/
theorem c1_slash_query_roundtrip :
    (∀ (db : Store) (c m : List Char),
        db.content_db "https://a.b/c/?q=1".data = some c →
        db.mimetype_db "https://a.b/c/?q=1".data = some m →
        (db.content_db "https://a.b/c?q=1".data = none ∨
          db.mimetype_db "https://a.b/c?q=1".data = none) →
        find_content db "https://a.b/c?q=1".data = (some c, some m)) ∧
    (∀ (db : Store) (c m : List Char),
        db.content_db "https://a.b/c?q=1".data = some c →
        db.mimetype_db "https://a.b/c?q=1".data = some m →
        (db.content_db "https://a.b/c/?q=1".data = none ∨
          db.mimetype_db "https://a.b/c/?q=1".data = none) →
        find_content db "https://a.b/c/?q=1".data = (some c, some m)) ∧
    (∀ db : Store,
        db.content_db "https://x".data = none →
        db.content_db "https://x/".data = none →
        find_content db "https://x".data = (none, none)) := by
  refine ⟨?_, ?_, ?_⟩
  · intro db c m h1 h2 h3
    have he : encodeSpaces "https://a.b/c?q=1".data =
        "https://a.b/c?q=1".data := by decide
    have hf : fallbackKey "https://a.b/c?q=1".data =
        "https://a.b/c/?q=1".data := by decide
    unfold find_content
    rw [he, hf, h1, h2]
    rcases h3 with h3 | h3
    · rw [h3]
    · rw [h3]
      cases db.content_db "https://a.b/c?q=1".data <;> rfl
  · intro db c m h1 h2 h3
    have he : encodeSpaces "https://a.b/c/?q=1".data =
        "https://a.b/c/?q=1".data := by decide
    have hf : fallbackKey "https://a.b/c/?q=1".data =
        "https://a.b/c?q=1".data := by decide
    unfold find_content
    rw [he, hf, h1, h2]
    rcases h3 with h3 | h3
    · rw [h3]
    · rw [h3]
      cases db.content_db "https://a.b/c/?q=1".data <;> rfl
  · intro db h1 h2
    have he : encodeSpaces "https://x".data = "https://x".data := by decide
    have hf : fallbackKey "https://x".data = "https://x/".data := by decide
    unfold find_content
    rw [he, hf, h1, h2]

/-- Witness for C1: concrete single-record stores in each direction, and
the double-rewrite store that stays unreachable. -/
theorem c1_witness :
    (slashKeyDb.content_db "https://a.b/c/?q=1".data = some "body1".data ∧
      find_content slashKeyDb "https://a.b/c?q=1".data =
        (some "body1".data, some "text/html".data)) ∧
    (noSlashKeyDb.content_db "https://a.b/c?q=1".data = some "body2".data ∧
      find_content noSlashKeyDb "https://a.b/c/?q=1".data =
        (some "body2".data, some "text/html".data)) ∧
    (doubleSlashDb.content_db "https://x//".data = some "deep".data ∧
      find_content doubleSlashDb "https://x".data = (none, none)) :=
  ⟨⟨by decide,
    c1_slash_query_roundtrip.1 slashKeyDb "body1".data "text/html".data
      (by decide) (by decide) (Or.inl (by decide))⟩,
   ⟨by decide,
    c1_slash_query_roundtrip.2.1 noSlashKeyDb "body2".data "text/html".data
      (by decide) (by decide) (Or.inl (by decide))⟩,
   ⟨by decide,
    c1_slash_query_roundtrip.2.2 doubleSlashDb (by decide) (by decide)⟩⟩

/-- C2: `find_content` is total and returns the not-found value
`(none, none)` whenever the space-encoded key and its single corrected
variant each fail to resolve in at least one namespace — a key present in
only one namespace (partial record) is treated exactly like an absent
key. -/
theorem c2_notfound_total (db : Store) (p : List Char)
    (h1 : db.content_db (encodeSpaces p) = none ∨
      db.mimetype_db (encodeSpaces p) = none)
    (h2 : db.content_db (fallbackKey (encodeSpaces p)) = none ∨
      db.mimetype_db (fallbackKey (encodeSpaces p)) = none) :
    find_content db p = (none, none) := by
  unfold find_content
  cases hA : db.content_db (encodeSpaces p) <;>
    cases hB : db.mimetype_db (encodeSpaces p) <;>
      cases hC : db.content_db (fallbackKey (encodeSpaces p)) <;>
        cases hD : db.mimetype_db (fallbackKey (encodeSpaces p)) <;>
          simp_all

/-- Witness for C2: a store in which every key is present in the content
namespace but absent from the mimetype namespace still reports
not-found. -/
theorem c2_witness :
    (partialDb.content_db (encodeSpaces "https://a.b".data) = some "x".data ∧
      partialDb.mimetype_db (encodeSpaces "https://a.b".data) = none) ∧
    find_content partialDb "https://a.b".data = (none, none) :=
  ⟨⟨by decide, by decide⟩,
   c2_notfound_total partialDb "https://a.b".data
     (Or.inr (by decide)) (Or.inr (by decide))⟩

/-- C3: with supported sites `hivrisk.cdc.gov`, `nccd.cdc.gov`, primary
site `www.cdc.gov`, primary host `www.restoredcdc.org` and current page
`hivrisk.cdc.gov/`, the rewriter maps a root-relative anchor into the
mirrored subtree, localises a supported-site absolute link, redirects a
primary-site absolute link to the primary host, and leaves a relative
link untouched. -/
theorem c3_rewrite_examples :
    (rewrite_html_urls ["hivrisk.cdc.gov".data, "nccd.cdc.gov".data]
        "www.restoredcdc.org".data ["www.cdc.gov".data]
        "hivrisk.cdc.gov/".data
        ("<a href=".data ++ [sq] ++ "/foo.html".data ++ [sq, '>']) =
      "<a href=".data ++ [sq] ++ "/hivrisk.cdc.gov/foo.html".data ++ [sq, '>']) ∧
    (rewrite_html_urls ["hivrisk.cdc.gov".data, "nccd.cdc.gov".data]
        "www.restoredcdc.org".data ["www.cdc.gov".data]
        "hivrisk.cdc.gov/".data
        ("<a href=".data ++ [sq] ++ "https://hivrisk.cdc.gov/foo.html".data ++
          [sq, '>']) =
      "<a href=".data ++ [sq] ++ "/hivrisk.cdc.gov/foo.html".data ++ [sq, '>']) ∧
    (rewrite_html_urls ["hivrisk.cdc.gov".data, "nccd.cdc.gov".data]
        "www.restoredcdc.org".data ["www.cdc.gov".data]
        "hivrisk.cdc.gov/".data
        ("<a href=".data ++ [sq] ++ "https://www.cdc.gov/".data ++ [sq, '>']) =
      "<a href=".data ++ [sq] ++
        "https://www.restoredcdc.org/www.cdc.gov/".data ++ [sq, '>']) ∧
    (rewrite_html_urls ["hivrisk.cdc.gov".data, "nccd.cdc.gov".data]
        "www.restoredcdc.org".data ["www.cdc.gov".data]
        "hivrisk.cdc.gov/".data
        ("<a href=".data ++ [sq] ++ "../foo.html".data ++ [sq, '>']) =
      "<a href=".data ++ [sq] ++ "../foo.html".data ++ [sq, '>']) := by
  refine ⟨by decide, by decide, by decide, by decide⟩

/-- C4 counterexample: the attribute-anchored absolute-path rewrite is
not idempotent.  With page domain `x`, rewriting `href="/foo` once gives
`href="/x/foo`; applying the rewrite a second time changes it again. -/
theorem c4_counterexample :
    rewrite_html_urls [] [] [] "x/".data
        (rewrite_html_urls [] [] [] "x/".data "href=\"/foo".data) ≠
      rewrite_html_urls [] [] [] "x/".data "href=\"/foo".data := by decide

/-- C4 (amended): applying the attribute-anchored absolute-path rewrite
twice does double-prefix the domain — an already rewritten reference
`href="/x/foo` is prefixed again to `href="/x/x/foo`, because the
replacement text `href="/x/` re-matches the pattern `href="/`.  The serving
pipeline therefore applies the rewrite exactly once per request. -/
theorem c4_double_application_double_prefixes :
    (rewrite_html_urls [] [] [] "x/".data "href=\"/x/foo".data =
      "href=\"/x/x/foo".data) ∧
    (rewrite_html_urls [] [] [] "x/".data
        (rewrite_html_urls [] [] [] "x/".data "href=\"/foo".data) =
      "href=\"/x/x/foo".data) := by
  refine ⟨by decide, by decide⟩

/-- C7: whenever the resolved mimetype is the `=redirect=` sentinel, the
route answers with a redirect to `/` followed by the stored content,
before the textual-rewrite gate is even consulted — the redirect target
is the stored bytes themselves, never rewritten, and no 200 body is
produced. -/
theorem c7_redirect_shortcircuit :
    (∀ (sup : List (List Char)) (host : List Char) (prim : List (List Char))
        (db : Store) (fp0 c : List Char),
        find_content db ("https://".data ++ simplify_path fp0) =
          (some c, some "=redirect=".data) →
        lookup sup host prim db fp0 =
          HttpResult.redirectTo ("/".data ++ c)) ∧
    (∀ (sup : List (List Char)) (host : List Char) (prim : List (List Char)),
        lookup sup host prim redirDb "foo".data =
          HttpResult.redirectTo "/other.cdc.gov/".data) := by
  have gen : ∀ (sup : List (List Char)) (host : List Char)
      (prim : List (List Char)) (db : Store) (fp0 c : List Char),
      find_content db ("https://".data ++ simplify_path fp0) =
        (some c, some "=redirect=".data) →
      lookup sup host prim db fp0 = HttpResult.redirectTo ("/".data ++ c) := by
    intro sup host prim db fp0 c h
    unfold lookup
    simp only [h]
    simp
  exact ⟨gen, fun sup host prim =>
    gen sup host prim redirDb "foo".data "other.cdc.gov/".data (by decide)⟩

/-- Witness for C7: the concrete redirect record of `redirDb`. -/
theorem c7_witness :
    (find_content redirDb ("https://".data ++ simplify_path "foo".data) =
      (some "other.cdc.gov/".data, some "=redirect=".data)) ∧
    lookup [] [] [] redirDb "foo".data =
      HttpResult.redirectTo ("/".data ++ "other.cdc.gov/".data) :=
  ⟨by decide,
   c7_redirect_shortcircuit.1 [] [] [] redirDb "foo".data
     "other.cdc.gov/".data (by decide)⟩

/-- C8: a record whose mimetype is neither the redirect sentinel nor one
of the recognised textual types is served byte-for-byte: the response
body is exactly the stored content, never passed through the rewriter.
In particular resolving `https://nccd.cdc.gov/favicon.ico` against a
store containing exactly that key returns the stored bytes with mimetype
`image/x-icon`, whatever the site lists are. -/
theorem c8_nontextual_passthrough :
    (∀ (sup : List (List Char)) (host : List Char) (prim : List (List Char))
        (db : Store) (fp0 c m : List Char),
        find_content db ("https://".data ++ simplify_path fp0) =
          (some c, some m) →
        m ≠ "=redirect=".data →
        isTextualMime m = false →
        lookup sup host prim db fp0 = HttpResult.ok c m) ∧
    (∀ (sup : List (List Char)) (host : List Char) (prim : List (List Char)),
        lookup sup host prim faviconDb
            "https://nccd.cdc.gov/favicon.ico".data =
          HttpResult.ok "1234".data "image/x-icon".data) := by
  have gen : ∀ (sup : List (List Char)) (host : List Char)
      (prim : List (List Char)) (db : Store) (fp0 c m : List Char),
      find_content db ("https://".data ++ simplify_path fp0) =
        (some c, some m) →
      m ≠ "=redirect=".data →
      isTextualMime m = false →
      lookup sup host prim db fp0 = HttpResult.ok c m := by
    intro sup host prim db fp0 c m h hm ht
    unfold lookup
    simp only [h]
    rw [if_neg hm, if_neg (by simp [ht])]
  exact ⟨gen, fun sup host prim =>
    gen sup host prim faviconDb "https://nccd.cdc.gov/favicon.ico".data
      "1234".data "image/x-icon".data (by decide) (by decide) (by decide)⟩

/-- Witness for C8: the favicon record of `faviconDb`. -/
theorem c8_witness :
    (find_content faviconDb
        ("https://".data ++
          simplify_path "https://nccd.cdc.gov/favicon.ico".data) =
      (some "1234".data, some "image/x-icon".data)) ∧
    ("image/x-icon".data ≠ "=redirect=".data) ∧
    (isTextualMime "image/x-icon".data = false) ∧
    lookup [] [] [] faviconDb "https://nccd.cdc.gov/favicon.ico".data =
      HttpResult.ok "1234".data "image/x-icon".data :=
  ⟨by decide, by decide, by decide,
   c8_nontextual_passthrough.1 [] [] [] faviconDb
     "https://nccd.cdc.gov/favicon.ico".data "1234".data
     "image/x-icon".data (by decide) (by decide) (by decide)⟩

/-- C10: the rewriter runs exactly when the mimetype is `text/html`,
starts with `text/html;`, or equals `application/javascript`,
`application/x-javascript`, `text/javascript` or `text/css`.  A
stylesheet mimetype carrying parameters (`text/css; charset=utf-8`) is
served without rewriting even though the content is rewritable, while
HTML with parameters (`text/html; charset=utf-8`) is rewritten. -/
theorem c10_textual_gate :
    (∀ (sup : List (List Char)) (host : List Char) (prim : List (List Char))
        (db : Store) (fp0 c m : List Char),
        find_content db ("https://".data ++ simplify_path fp0) =
          (some c, some m) →
        m ≠ "=redirect=".data →
        lookup sup host prim db fp0 =
          if m = "text/html".data ∨ "text/html;".data <+: m ∨
              m = "application/javascript".data ∨
              m = "application/x-javascript".data ∨
              m = "text/javascript".data ∨ m = "text/css".data
          then HttpResult.ok
            (rewrite_html_urls sup host prim (simplify_path fp0) c) m
          else HttpResult.ok c m) ∧
    (∀ (sup : List (List Char)) (host : List Char) (prim : List (List Char)),
        lookup sup host prim cssParamDb "x/a".data =
          HttpResult.ok "href=\"/foo".data "text/css; charset=utf-8".data) ∧
    (lookup [] [] [] htmlParamDb "x/a".data =
      HttpResult.ok "href=\"/x/foo".data "text/html; charset=utf-8".data) ∧
    (rewrite_html_urls [] [] [] "x/a".data "href=\"/foo".data ≠
      "href=\"/foo".data) := by
  have gen : ∀ (sup : List (List Char)) (host : List Char)
      (prim : List (List Char)) (db : Store) (fp0 c m : List Char),
      find_content db ("https://".data ++ simplify_path fp0) =
        (some c, some m) →
      m ≠ "=redirect=".data →
      lookup sup host prim db fp0 =
        if m = "text/html".data ∨ "text/html;".data <+: m ∨
            m = "application/javascript".data ∨
            m = "application/x-javascript".data ∨
            m = "text/javascript".data ∨ m = "text/css".data
        then HttpResult.ok
          (rewrite_html_urls sup host prim (simplify_path fp0) c) m
        else HttpResult.ok c m := by
    intro sup host prim db fp0 c m h hm
    unfold lookup
    simp only [h]
    rw [if_neg hm]
    by_cases hd : m = "text/html".data ∨ "text/html;".data <+: m ∨
        m = "application/javascript".data ∨
        m = "application/x-javascript".data ∨
        m = "text/javascript".data ∨ m = "text/css".data
    · rw [if_pos hd, if_pos ((isTextualMime_iff m).mpr hd)]
    · rw [if_neg hd, if_neg (fun hx => hd ((isTextualMime_iff m).mp hx))]
  refine ⟨gen, ?_, by decide, by decide⟩
  intro sup host prim
  rw [gen sup host prim cssParamDb "x/a".data "href=\"/foo".data
    "text/css; charset=utf-8".data (by decide) (by decide)]
  rw [if_neg (by decide)]

/-- Witness for C10: the stylesheet-with-parameters record of
`cssParamDb` run through the gate. -/
theorem c10_witness :
    (find_content cssParamDb ("https://".data ++ simplify_path "x/a".data) =
      (some "href=\"/foo".data, some "text/css; charset=utf-8".data)) ∧
    ("text/css; charset=utf-8".data ≠ "=redirect=".data) ∧
    lookup [] [] [] cssParamDb "x/a".data =
      HttpResult.ok "href=\"/foo".data "text/css; charset=utf-8".data := by
  refine ⟨by decide, by decide, ?_⟩
  rw [c10_textual_gate.1 [] [] [] cssParamDb "x/a".data "href=\"/foo".data
    "text/css; charset=utf-8".data (by decide) (by decide)]
  rw [if_neg (by decide)]

end ServeCDC
